import Mathlib

/-!
Verification development for the CTFdCLI repository.

This file gives a shallow embedding of the CTFd API client core
(`ctfdcli/core/api_client.py`) and of the profile store
(`ctfdcli/core/config.py`), and proves or refutes the frozen claims
about them.

Modelling conventions:
* Decoded JSON bodies are values of the inductive type `Json` below
  (numbers are modelled as integers; no claim involves a float).
* The HTTP layer is an oracle supplied as input: either a list of raw
  outcomes consumed in call order, or a function from endpoint (and
  payload) to a raw outcome.
* Python exceptions that the source code catches are explicit
  constructors (`ReqResult.apiError` models `CTFdAPIError`); a Python
  exception that no enclosing handler catches (for example the
  `AttributeError` arising from calling `.get` on a non-dict value) is
  modelled as `ReqResult.crash`, or as `none` in an `Option` result.
-/

/-- Decoded JSON value, as produced by `response.json()` in the source.
Numbers are modelled as integers; no claim depends on floats. -/
inductive Json where
  | null
  | bool (b : Bool)
  | num (n : Int)
  | str (s : String)
  | arr (elems : List Json)
  | obj (fields : List (String × Json))
deriving Repr, Inhabited

/-- Python equality test of a decoded JSON value against a string
literal (`x == "lit"`): true exactly when the value is that string. -/
def Json.eqStr : Json → String → Bool
  | .str t, s => t == s
  | _, _ => false

/-- Python `x is None` on a decoded JSON value. -/
def Json.isNull : Json → Bool
  | .null => true
  | _ => false

/-- Python `x is True` on an optional decoded JSON value (`None` when
the key was absent): true exactly for the boolean `True` object. -/
def optIsTrue : Option Json → Bool
  | some (.bool true) => true
  | _ => false

/-- Python truthiness of a decoded JSON value (`bool(x)` in Python):
None, False, 0, empty string, empty list and empty dict are falsy. -/
def Json.truthy : Json → Bool
  | .null => false
  | .bool b => b
  | .num n => n != 0
  | .str s => s != ""
  | .arr xs => !xs.isEmpty
  | .obj fs => !fs.isEmpty

/-- Python `str()` of a decoded JSON value. Faithful for the scalar
values every claim exercises (None, booleans, integers, strings); the
textual form of nested containers is abstracted to a fixed placeholder
because no claim depends on it. -/
def Json.pyStr : Json → String
  | .null => "None"
  | .bool true => "True"
  | .bool false => "False"
  | .num n => toString n
  | .str s => s
  | .arr _ => "<list>"
  | .obj _ => "<dict>"

/-- Lookup of a key in a decoded JSON object (Python dict keys are
unique; this returns the first binding). -/
def dlookup : List (String × Json) → String → Option Json
  | [], _ => none
  | (k, v) :: rest, key => if k = key then some v else dlookup rest key

/-- Python `d.get(key, default)` on a dict. -/
def dgetD (fields : List (String × Json)) (key : String) (default : Json) : Json :=
  (dlookup fields key).getD default

/-- Key containment test on a decoded JSON object (`key in d`). -/
def hasKey (fields : List (String × Json)) (key : String) : Bool :=
  (dlookup fields key).isSome

/-- Whether one character list starts with another (the second argument
is the candidate pattern). -/
def charsStart : List Char → List Char → Bool
  | _, [] => true
  | [], _ :: _ => false
  | c :: cs, p :: ps => c == p && charsStart cs ps

/-- Whether a character list contains another as a contiguous run. -/
def charsContain : List Char → List Char → Bool
  | [], pat => pat.isEmpty
  | c :: cs, pat => charsStart (c :: cs) pat || charsContain cs pat

/-- Python substring test `pat in s`. -/
def strContains (s pat : String) : Bool :=
  charsContain s.data pat.data

/-- Python `s.startswith(pat)`. -/
def pyStartsWith (s pat : String) : Bool :=
  charsStart s.data pat.data

/-- Raw outcome of one HTTP call as seen by `_make_request` after the
transport layer: a 2xx response with an optional decoded JSON body, a
`requests.exceptions.RequestException` (transport failure or the
`HTTPError` raised by `raise_for_status` on a non-2xx status), or a
`ValueError` from `response.json()`. For an HTTP error the message is
the `str()` of the exception, for example
`400 Client Error: BAD REQUEST for url: https://host/api/v1/...`. -/
inductive RawResponse where
  | success (body : Option Json)
  | httpFailure (msg : String)
  | badJson (msg : String)
deriving Repr

/-- Result of `_make_request`: returned data, a raised `CTFdAPIError`
(carrying its message), or an uncaught Python exception (the
`AttributeError` from `data.get(...)` when the decoded body is not a
dict; only `RequestException` and `ValueError` are caught). -/
inductive ReqResult where
  | ok (data : Json)
  | apiError (msg : String)
  | crash
deriving Repr

/-- Shallow embedding of `CTFdClient._make_request`
(`ctfdcli/core/api_client.py`, lines 53-85): empty bodies yield an
empty dict; otherwise, if `data.get('success', True)` is falsy, a
`CTFdAPIError` carrying `data.get('message', 'Unknown error')` is
raised; otherwise `data.get('data', data)` is returned. Transport and
JSON-decoding failures are wrapped into `CTFdAPIError` with the
prefixes `Request failed: ` and `Invalid JSON response: `. A decoded
body that is valid JSON but not an object makes `data.get` raise an
uncaught `AttributeError`, modelled as `crash`. -/
def make_request : RawResponse → ReqResult
  | .httpFailure m => .apiError ("Request failed: " ++ m)
  | .badJson m => .apiError ("Invalid JSON response: " ++ m)
  | .success none => .ok (.obj [])
  | .success (some body) =>
    match body with
    | .obj fields =>
      if (dgetD fields "success" (.bool true)).truthy then
        .ok (dgetD fields "data" (.obj fields))
      else
        .apiError ("API Error: " ++ (dgetD fields "message" (.str "Unknown error")).pyStr)
    | _ => .crash

/-- Shallow embedding of `CTFdClient.test_connection`
(`ctfdcli/core/api_client.py`, lines 87-97): issue a GET on
`/challenges` via `_make_request`; return `True` on success, `False` on
`CTFdAPIError`. `none` models a Python exception that is not a
`CTFdAPIError` escaping to the caller. -/
def test_connection (r : RawResponse) : Option Bool :=
  match make_request r with
  | .ok _ => some true
  | .apiError _ => some false
  | .crash => none

/-- Outcome of one call of `submit_flag`: a definitive `(bool, message)`
pair (the message is the raw value taken from the response, which the
source does not force to be a string), or an uncaught Python exception. -/
inductive SubmitResult where
  | done (ok : Bool) (msg : Json)
  | crash
deriving Repr

/-- The ordered candidate list `submission_attempts` built by
`CTFdClient.submit_flag` (`ctfdcli/core/api_client.py`, lines 331-352):
endpoint and JSON payload for each of the four submission shapes. -/
def submission_attempts (challenge_id : Int) (flag : String) : List (String × Json) :=
  [ ("/challenges/attempt",
      .obj [("challenge_id", .num challenge_id), ("submission", .str flag)]),
    ("/challenges/" ++ toString challenge_id ++ "/attempts",
      .obj [("submission", .str flag)]),
    ("/submissions",
      .obj [("challenge_id", .num challenge_id), ("submission", .str flag)]),
    ("/submissions",
      .obj [("challenge", .num challenge_id), ("flag", .str flag)]) ]

/-- Classification of a structurally valid (dict) response by
`submit_flag` (`ctfdcli/core/api_client.py`, lines 368-387):
`status = data.get('status')`; `message = data.get('message',
'Unknown response')`; when `status` is None and a `success` key exists,
`status` becomes `correct`/`incorrect` by truthiness of that key;
`is_correct` is the short-circuit disjunction of `status == 'correct'`,
`status == 'success'`, `data.get('success') is True`, and the
case-insensitive check that `message` starts with `correct` but not
with `incorrect` (which raises `AttributeError` when the message is not
a string). A non-dict value yields the `Unexpected response format`
result. -/
def classify (data : Json) : SubmitResult :=
  match data with
  | .obj fields =>
    let status0 := dgetD fields "status" .null
    let message := dgetD fields "message" (.str "Unknown response")
    let status :=
      if status0.isNull && hasKey fields "success" then
        if (dgetD fields "success" .null).truthy then Json.str "correct"
        else Json.str "incorrect"
      else status0
    if status.eqStr "correct" || status.eqStr "success"
        || optIsTrue (dlookup fields "success") then
      .done true message
    else
      match message with
      | .str s =>
        .done (pyStartsWith s.toLower "correct" && !pyStartsWith s.toLower "incorrect")
          message
      | _ => .crash
  | _ => .done false (.str ("Unexpected response format: " ++ data.pyStr))

/-- Message returned by `submit_flag` when every candidate endpoint was
rejected with a 403/404-style error (`ctfdcli/core/api_client.py`,
lines 399-403): a specialized text when the last error text contains
`403`, otherwise a generic text carrying the last raw error (Python
formats a missing last error as `None`). -/
def exhaustMessage : Option String → String
  | some e =>
    if strContains e "403" then
      "Flag submission not allowed - this CTFd instance may not support API submissions or requires different permissions"
    else
      "Could not find working submission endpoint. Last error: " ++ e
  | none => "Could not find working submission endpoint. Last error: None"

/-- The candidate loop of `submit_flag` (`ctfdcli/core/api_client.py`,
lines 354-403), carrying the remaining candidates, the last error text
and the number of HTTP calls made so far. For each candidate, the
request is issued; a returned value is classified and is definitive; a
`CTFdAPIError` whose text contains neither `404` nor `403` is returned
immediately as `(False, error text)`; otherwise the loop moves to the
next candidate remembering the error. The oracle `net` maps an
endpoint and payload to the raw HTTP outcome. -/
def submitGo (net : String → Json → RawResponse) :
    List (String × Json) → Option String → Nat → SubmitResult × Nat
  | [], lastError, n => (.done false (.str (exhaustMessage lastError)), n)
  | (endpoint, payload) :: rest, _lastError, n =>
    match make_request (net endpoint payload) with
    | .ok data => (classify data, n + 1)
    | .apiError msg =>
      if !strContains msg "404" && !strContains msg "403" then
        (.done false (.str msg), n + 1)
      else
        submitGo net rest (some msg) (n + 1)
    | .crash => (.crash, n + 1)

/-- Shallow embedding of `CTFdClient.submit_flag`
(`ctfdcli/core/api_client.py`, lines 320-403). The result pairs the
submission outcome with the number of HTTP calls issued. -/
def submit_flag (net : String → Json → RawResponse) (challenge_id : Int)
    (flag : String) : SubmitResult × Nat :=
  submitGo net (submission_attempts challenge_id flag) none 0

/-- Python iteration over a decoded JSON value (`for x in v`): lists
yield their elements, dicts yield their keys, strings yield their
one-character substrings; other values raise `TypeError`, modelled as
`none`. -/
def pyIter : Json → Option (List Json)
  | .arr xs => some xs
  | .obj fields => some (fields.map (fun p => Json.str p.1))
  | .str s => some (s.data.map (fun c => Json.str (String.singleton c)))
  | _ => none

/-- Python subscription `v[key]` with a string key: a present dict key
yields its value; a missing dict key (`KeyError`) and any non-dict
value (`TypeError`) raise, modelled as `none`. -/
def getItem : Json → String → Option Json
  | .obj fields, key => dlookup fields key
  | _, _ => none

/-- Python membership `key in v` for a string key: key containment for
dicts, element equality for lists, substring test for strings; other
values raise `TypeError`, modelled as `none`. -/
def pyContains : Json → String → Option Bool
  | .obj fields, key => some (hasKey fields key)
  | .arr xs, key => some (xs.any (fun x => x.eqStr key))
  | .str s, key => some (strContains s key)
  | _, _ => none

/-- Python `v.get(key, default)`: only dicts have `.get`; any other
value raises `AttributeError`, modelled as `none`. -/
def pyGetD (v : Json) (key : String) (default : Json) : Option Json :=
  match v with
  | .obj fields => some (dgetD fields key default)
  | _ => none

/-- The list comprehension used for solves-shaped endpoints by the
first `get_user_solves` definition (`ctfdcli/core/api_client.py`, line
452): collect `solve['challenge_id']` for every element that contains a
`challenge_id` key. -/
def solvesOfList : List Json → Option (List Json)
  | [] => some []
  | solve :: rest => do
    let c ← pyContains solve "challenge_id"
    let tail ← solvesOfList rest
    if c then
      let v ← getItem solve "challenge_id"
      pure (v :: tail)
    else
      pure tail

/-- The list comprehension used for the `/me` endpoint by the first
`get_user_solves` definition (`ctfdcli/core/api_client.py`, line 456):
collect `solve['challenge_id']` over the iterable under the user's
`solves` key. -/
def solvesOfMe (v : Json) : Option (List Json) := do
  let xs ← pyIter v
  xs.mapM (fun solve => getItem solve "challenge_id")

/-- The list comprehension used for the `/submissions/me` endpoint by
the first `get_user_solves` definition (`ctfdcli/core/api_client.py`,
line 460): collect `sub['challenge_id']` for every submission whose
`type` equals `correct`. -/
def solvesOfSubmissions : List Json → Option (List Json)
  | [] => some []
  | sub :: rest => do
    let t ← pyGetD sub "type" .null
    let tail ← solvesOfSubmissions rest
    if t.eqStr "correct" then
      let v ← getItem sub "challenge_id"
      pure (v :: tail)
    else
      pure tail

/-- The endpoint sequence tried by the first `get_user_solves`
definition for the current user (`user_id is None`;
`ctfdcli/core/api_client.py`, lines 438-443). -/
def solvesEndpoints : List String :=
  ["/me/solves", "/me", "/submissions/me", "/teams/me/solves"]

/-- The body collecting solved ids inside the `/challenges` fallback of
the first `get_user_solves` definition (`ctfdcli/core/api_client.py`,
lines 470-473): append `challenge_data['id']` for every entry whose
`solved_by_me` value (`.get`, default False) is truthy. -/
def solvesFallbackCollect : List Json → Option (List Json)
  | [] => some []
  | c :: rest => do
    let s ← pyGetD c "solved_by_me" (.bool false)
    let tail ← solvesFallbackCollect rest
    if s.truthy then
      let v ← getItem c "id"
      pure (v :: tail)
    else
      pure tail

/-- The `/challenges` fallback of the first `get_user_solves`
definition (`ctfdcli/core/api_client.py`, lines 465-475): fetch the
challenges list and derive the solved ids from the `solved_by_me`
flags; the surrounding bare `except:` turns every failure — including
`CTFdAPIError`, `TypeError` and `KeyError` — into an empty list, so
this fallback never raises. -/
def solvesFallback (oracle : String → RawResponse) : List Json :=
  match make_request (oracle "/challenges") with
  | .ok data =>
    match pyIter data with
    | some xs => (solvesFallbackCollect xs).getD []
    | none => []
  | _ => []

/-- The endpoint loop of the first `get_user_solves` definition
(`ctfdcli/core/api_client.py`, lines 445-463): each endpoint is tried
in order; a `CTFdAPIError` moves to the next endpoint; a response whose
shape does not match the endpoint-specific expectation also falls
through to the next endpoint; exhaustion enters the `/challenges`
fallback. Crashes inside the comprehensions are not caught (`none`). -/
def solvesChainGo (oracle : String → RawResponse) :
    List String → Option (List Json)
  | [] => some (solvesFallback oracle)
  | endpoint :: rest =>
    match make_request (oracle endpoint) with
    | .crash => none
    | .apiError _ => solvesChainGo oracle rest
    | .ok data =>
      if endpoint == "/me/solves" || strContains endpoint "solves" then
        match data with
        | .arr xs => solvesOfList xs
        | _ => solvesChainGo oracle rest
      else if endpoint == "/me" then
        match data with
        | .obj fields =>
          if hasKey fields "solves" then
            solvesOfMe (dgetD fields "solves" .null)
          else
            solvesChainGo oracle rest
        | _ => solvesChainGo oracle rest
      else if strContains endpoint "submissions" then
        match data with
        | .arr xs => solvesOfSubmissions xs
        | _ => solvesChainGo oracle rest
      else
        solvesChainGo oracle rest

/-- The FIRST definition of `get_user_solves` in the class body
(`ctfdcli/core/api_client.py`, lines 428-475), specialized to the
current user (`user_id = None`). In Python this definition is dead
code: a second `def get_user_solves` later in the same class body
(lines 584-596) rebinds the method name, so this fallback chain can
never be invoked. -/
def getUserSolvesChainMe (oracle : String → RawResponse) : Option (List Json) :=
  solvesChainGo oracle solvesEndpoints

/-- The SECOND definition of `get_user_solves` in the class body
(`ctfdcli/core/api_client.py`, lines 584-596). Because it appears
later in the class body, it is the method that actually exists on
`CTFdClient`: it requires a `user_id`, issues a single GET on
`/users/{user_id}/solves`, returns the raw data on success and an
empty list on `CTFdAPIError`. -/
def get_user_solves (oracle : String → RawResponse) (user_id : Int) : Option Json :=
  match make_request (oracle ("/users/" ++ toString user_id ++ "/solves")) with
  | .ok data => some data
  | .apiError _ => some (.arr [])
  | .crash => none

/-- Typed scoreboard entry (`ctfdcli/core/models.py`, lines 73-79).
The field values are kept as the decoded JSON values the source passes
to the constructor; `pos` is the 1-indexed rank computed by
`get_scoreboard`. -/
structure ScoreboardEntry where
  pos : Nat
  account_id : Json
  account_name : Json
  score : Json
  account_type : Json
deriving Repr

/-- Construction of one scoreboard entry by `get_scoreboard`
(`ctfdcli/core/api_client.py`, lines 417-424): `pos` is the enumeration
index, the remaining fields are `entry['account_id']`, `entry['name']`,
`entry['score']` and `entry.get('type', 'user')`; a missing key or a
non-dict entry raises, modelled as `none`. -/
def mkScoreboardEntry (i : Nat) (entry : Json) : Option ScoreboardEntry :=
  match getItem entry "account_id", getItem entry "name", getItem entry "score",
      pyGetD entry "type" (.str "user") with
  | some aid, some nm, some sc, some ty => some ⟨i, aid, nm, sc, ty⟩
  | _, _, _, _ => none

/-- The `enumerate(data, 1)` loop of `get_scoreboard`
(`ctfdcli/core/api_client.py`, lines 416-426), carrying the next
1-indexed position. -/
def scoreboardGo : Nat → List Json → Option (List ScoreboardEntry)
  | _, [] => some []
  | i, e :: rest => do
    let ent ← mkScoreboardEntry i e
    let tail ← scoreboardGo (i + 1) rest
    pure (ent :: tail)

/-- Shallow embedding of `CTFdClient.get_scoreboard`
(`ctfdcli/core/api_client.py`, lines 405-426), applied to the decoded
scoreboard list returned by `_make_request`: entries are built in
response order with positions `1, 2, ...`. -/
def get_scoreboard (data : List Json) : Option (List ScoreboardEntry) :=
  scoreboardGo 1 data

/-- Python `file.lstrip('/')`: remove every leading slash. -/
def lstripSlash (s : String) : String :=
  ⟨s.data.dropWhile (fun c => c == '/')⟩

/-- The per-file URL resolution of `get_challenge_files`
(`ctfdcli/core/api_client.py`, lines 281-292): entries starting with
`http` are kept; entries starting with `/files/` get the base URL
prepended; anything else gets the base URL plus `/files/` prepended
after stripping leading slashes. -/
def fileUrl (base_url file : String) : String :=
  if pyStartsWith file "http" then file
  else if pyStartsWith file "/files/" then base_url ++ file
  else base_url ++ "/files/" ++ lstripSlash file

/-- Shallow embedding of `CTFdClient.get_challenge_files`
(`ctfdcli/core/api_client.py`, lines 270-293), applied to the
challenge's `files` list (`data.get('files', [])`): each entry is
resolved by `fileUrl` against the client's base URL. -/
def get_challenge_files (base_url : String) (files : List String) : List String :=
  files.map (fileUrl base_url)

/-- Profile record (`ctfdcli/core/models.py`, lines 64-70). -/
structure CTFProfile where
  name : String
  url : String
  token : String
  user_mode : Bool
  default : Bool
deriving Repr, DecidableEq

/-- The on-disk profile store: the insertion-ordered mapping from
profile name to profile that `load_profiles`/`save_profiles` round-trip
(`ctfdcli/core/config.py`). A Python dict keeps insertion order and has
unique keys; every store the program builds has unique keys. -/
def Store := List (String × CTFProfile)

/-- First binding of a name in a store (Python `profiles.get(name)` /
`profiles[name]` on the unique key). -/
def dictLookup : Store → String → Option CTFProfile
  | [], _ => none
  | (k, v) :: rest, key => if k = key then some v else dictLookup rest key

/-- Python dict assignment `profiles[name] = profile`: replace the
binding in place when the key exists, append otherwise. -/
def dictInsert : Store → String → CTFProfile → Store
  | [], key, v => [(key, v)]
  | (k, v0) :: rest, key, v =>
    if k = key then (k, v) :: rest else (k, v0) :: dictInsert rest key v

/-- Python `del profiles[name]`: drop the binding of the key. -/
def dictRemove : Store → String → Store
  | [], _ => []
  | (k, v0) :: rest, key =>
    if k = key then rest else (k, v0) :: dictRemove rest key

/-- The clearing loop `for profile in profiles.values():
profile.default = False` used by `add_profile` and
`set_default_profile` (`ctfdcli/core/config.py`). -/
def clearDefaults : Store → Store
  | [] => []
  | (k, p) :: rest => (k, { p with default := false }) :: clearDefaults rest

/-- Number of stored profiles whose `default` flag is true. -/
def countDefaults : Store → Nat
  | [] => 0
  | (_, p) :: rest => (if p.default then 1 else 0) + countDefaults rest

/-- The `default` flag of the profile stored under a name, false when
the name is absent. -/
def defaultAt (s : Store) (name : String) : Bool :=
  match dictLookup s name with
  | some p => p.default
  | none => false

/-- Shallow embedding of `ConfigManager.add_profile`
(`ctfdcli/core/config.py`, lines 81-125), returning the store that
`save_profiles` persists: when `set_default` is requested every
existing profile's flag is cleared first; the new profile's flag is
`set_default or len(profiles) == 0` (the first profile ever added is
always the default); the new profile is then assigned under its name,
overwriting any existing binding. -/
def add_profile (s : Store) (name url token : String)
    (user_mode set_default : Bool) : Store :=
  let s1 := if set_default then clearDefaults s else s
  let profile : CTFProfile :=
    ⟨name, url, token, user_mode, set_default || (s.length == 0)⟩
  dictInsert s1 name profile

/-- Shallow embedding of `ConfigManager.delete_profile`
(`ctfdcli/core/config.py`, lines 161-191), returning the persisted
store: an unknown name leaves the store unchanged (the method returns
False without saving); otherwise the binding is removed, and when the
removed profile was the default and profiles remain, the first
remaining profile in insertion order becomes the default. -/
def delete_profile (s : Store) (name : String) : Store :=
  match dictLookup s name with
  | none => s
  | some p =>
    let s1 := dictRemove s name
    if p.default && !s1.isEmpty then
      match s1 with
      | [] => s1
      | q :: rest => (q.1, { q.2 with default := true }) :: rest
    else s1

/-- In-place update `profiles[name].default = True` on the first
binding of the name. -/
def setDefaultTrue : Store → String → Store
  | [], _ => []
  | (k, v0) :: rest, key =>
    if k = key then (k, { v0 with default := true }) :: rest
    else (k, v0) :: setDefaultTrue rest key

/-- Shallow embedding of `ConfigManager.set_default_profile`
(`ctfdcli/core/config.py`, lines 193-219), returning the persisted
store: an unknown name leaves the store unchanged; otherwise every
flag is cleared and the named profile's flag is set. -/
def set_default_profile (s : Store) (name : String) : Store :=
  match dictLookup s name with
  | none => s
  | some _ => setDefaultTrue (clearDefaults s) name

/-! ### Helper lemmas -/

theorem str_data_append (a b : String) : (a ++ b).data = a.data ++ b.data := rfl

theorem charsStart_append (l pat ext : List Char)
    (h : charsStart l pat = true) : charsStart (l ++ ext) pat = true := by
  induction l generalizing pat with
  | nil =>
    cases pat with
    | nil => cases ext <;> rfl
    | cons p ps => simp [charsStart] at h
  | cons c cs ih =>
    cases pat with
    | nil => rfl
    | cons p ps =>
      simp only [charsStart, Bool.and_eq_true] at h
      simp only [List.cons_append, charsStart, Bool.and_eq_true]
      exact ⟨h.1, ih ps h.2⟩

theorem charsContain_append (l pat ext : List Char)
    (h : charsContain l pat = true) : charsContain (l ++ ext) pat = true := by
  induction l with
  | nil =>
    simp only [charsContain, List.isEmpty_iff] at h
    subst h
    cases ext with
    | nil => rfl
    | cons e es => simp [charsContain, charsStart]
  | cons c cs ih =>
    simp only [charsContain, Bool.or_eq_true] at h ⊢
    rcases h with h | h
    · exact Or.inl (charsStart_append _ _ _ h)
    · exact Or.inr (ih h)

theorem strContains_append (a b pat : String)
    (h : strContains a pat = true) : strContains (a ++ b) pat = true := by
  unfold strContains at *
  rw [str_data_append]
  exact charsContain_append _ _ _ h

/-! ### C2 — envelope normalization in `_make_request` -/

/-- Whether a decoded JSON value is a scalar (not a list and not a
dict) — the values on which `Json.pyStr` renders Python `str()`
faithfully. -/
def Json.isScalar : Json → Bool
  | .arr _ => false
  | .obj _ => false
  | _ => true

/-- C2 (amended): for every decoded response body that is a JSON
object, if it contains a `success` key whose value is FALSY in the
Python sense (false, null, 0, empty string, empty array or empty
object — not only the boolean false the claim names), `_make_request`
raises a typed API error and never returns a value, the error carrying
the Python `str()` of the body's `message` — the message itself when
it is a string, `Unknown error` when absent; otherwise it returns the
value under the `data` key if present, else the whole decoded body
unchanged; and for an empty body it returns an empty object. A body
that is valid JSON but not an object raises an uncaught
`AttributeError` instead (see this claim's counterexample), which is
why the amended claim quantifies over object bodies. The first
conjunct covers every falsy-success body whatever the shape of its
message; the second pins the exact error text whenever the message
value is a scalar (where the embedding's `str()` is faithful), the
third and fourth specialize it to the string-message and
absent-message cases in the claim's own words. -/
theorem make_request_envelope_amended :
    (∀ fields v, dlookup fields "success" = some v → v.truthy = false →
      ∃ e, make_request (.success (some (.obj fields))) = .apiError e) ∧
    (∀ fields v, dlookup fields "success" = some v → v.truthy = false →
      (dgetD fields "message" (.str "Unknown error")).isScalar = true →
      make_request (.success (some (.obj fields)))
        = .apiError ("API Error: "
            ++ (dgetD fields "message" (.str "Unknown error")).pyStr)) ∧
    (∀ fields v m, dlookup fields "success" = some v → v.truthy = false →
      dlookup fields "message" = some (.str m) →
      make_request (.success (some (.obj fields))) = .apiError ("API Error: " ++ m)) ∧
    (∀ fields v, dlookup fields "success" = some v → v.truthy = false →
      dlookup fields "message" = none →
      make_request (.success (some (.obj fields))) = .apiError "API Error: Unknown error") ∧
    (∀ fields d, (∀ v, dlookup fields "success" = some v → v.truthy = true) →
      dlookup fields "data" = some d →
      make_request (.success (some (.obj fields))) = .ok d) ∧
    (∀ fields, (∀ v, dlookup fields "success" = some v → v.truthy = true) →
      dlookup fields "data" = none →
      make_request (.success (some (.obj fields))) = .ok (.obj fields)) ∧
    make_request (.success none) = .ok (.obj []) := by
  refine ⟨?_, ?_, ?_, ?_, ?_, ?_, rfl⟩
  · intro fields v hs hv
    exact ⟨"API Error: " ++ (dgetD fields "message" (.str "Unknown error")).pyStr,
      by simp [make_request, dgetD, hs, hv]⟩
  · intro fields v hs hv _
    simp [make_request, dgetD, hs, hv]
  · intro fields v m hs hv hm
    simp [make_request, dgetD, hs, hv, hm, Json.pyStr]
  · intro fields v hs hv hm
    simp [make_request, dgetD, hs, hv, hm, Json.pyStr]
  · intro fields d hs hd
    have ht : ((dlookup fields "success").getD (Json.bool true)).truthy = true := by
      cases h : dlookup fields "success" with
      | none => rfl
      | some v => exact hs v h
    simp [make_request, dgetD, ht, hd]
  · intro fields hs hd
    have ht : ((dlookup fields "success").getD (Json.bool true)).truthy = true := by
      cases h : dlookup fields "success" with
      | none => rfl
      | some v => exact hs v h
    simp [make_request, dgetD, ht, hd]

/-- Witness for C2's amended theorem at concrete bodies: a falsy
`success` with a non-scalar (dict) message still raises a typed API
error, a falsy `success` with a scalar (null) message carries its
`str()`, an envelope failure with a string message carries it, a
falsy `success` without a message carries the default, a wrapped
`data` payload is unwrapped, and an envelope-free body is returned
unchanged. -/
theorem make_request_envelope_amended_witness :
    (∃ e, make_request (.success (some (.obj
        [("success", .bool false), ("message", .obj [("detail", .str "x")])])))
      = .apiError e) ∧
    make_request (.success (some (.obj [("success", .bool false), ("message", Json.null)])))
      = .apiError ("API Error: "
          ++ (dgetD [("success", .bool false), ("message", Json.null)]
                "message" (.str "Unknown error")).pyStr) ∧
    make_request (.success (some (.obj [("success", .bool false), ("message", .str "Nope")])))
      = .apiError ("API Error: " ++ "Nope") ∧
    make_request (.success (some (.obj [("success", .num 0)])))
      = .apiError "API Error: Unknown error" ∧
    make_request (.success (some (.obj [("success", .bool true), ("data", .num 7)])))
      = .ok (.num 7) ∧
    make_request (.success (some (.obj [("name", .str "x")])))
      = .ok (.obj [("name", .str "x")]) :=
  ⟨make_request_envelope_amended.1 _ (.bool false) rfl rfl,
   make_request_envelope_amended.2.1 _ (.bool false) rfl rfl rfl,
   make_request_envelope_amended.2.2.1 _ (.bool false) "Nope" rfl rfl rfl,
   make_request_envelope_amended.2.2.2.1 _ (.num 0) rfl rfl rfl,
   make_request_envelope_amended.2.2.2.2.1 _ (.num 7)
     (fun v hv => by cases hv; rfl) rfl,
   make_request_envelope_amended.2.2.2.2.2.1 _
     (fun v hv => by cases hv) rfl⟩

/-- Counterexample for C2 as stated, in both directions the original
claim fails. First: the object body consisting of a single `success`
key holding null contains no `success` key EQUAL TO false, so the
claim requires the whole body to be returned unchanged, but the code
treats every falsy `success` value as a failure envelope and raises
`CTFdAPIError` with the default message. Second: a decoded body that
is a JSON array — the bare-payload shape the claim's `otherwise`
branch requires to be returned unchanged — is never returned: the
helper's `data.get` raises an uncaught `AttributeError`, which is why
the amended claim quantifies over object bodies only. -/
theorem make_request_envelope_counterexample :
    make_request (.success (some (.obj [("success", Json.null)])))
      = .apiError "API Error: Unknown error" ∧
    make_request (.success (some (.obj [("success", Json.null)])))
      ≠ .ok (.obj [("success", Json.null)]) ∧
    make_request (.success (some (.arr [Json.num 1]))) = .crash ∧
    make_request (.success (some (.arr [Json.num 1]))) ≠ .ok (.arr [Json.num 1]) :=
  ⟨rfl, fun h => ReqResult.noConfusion h, rfl, fun h => ReqResult.noConfusion h⟩

/-! ### C7 — `test_connection` -/

/-- Whether an optional decoded body is absent or a JSON object (the
shapes `_make_request` handles without an uncaught exception). -/
def objBody : Option Json → Bool
  | none => true
  | some (.obj _) => true
  | some _ => false

/-- C7 (amended): `test_connection` returns false whenever the GET on
`/challenges` raises `CTFdAPIError` (every transport, HTTP-status and
JSON-decoding failure is wrapped into that error), returns true
whenever `_make_request` returns data, and raises nothing whenever the
decoded body — if any — is a JSON object. The unamended claim fails
only for a successful response whose body is valid JSON but not an
object, where an uncaught `AttributeError` escapes to the caller. -/
theorem test_connection_amended :
    (∀ r e, make_request r = .apiError e → test_connection r = some false) ∧
    (∀ r d, make_request r = .ok d → test_connection r = some true) ∧
    (∀ body, objBody body = true → test_connection (.success body) ≠ none) := by
  refine ⟨?_, ?_, ?_⟩
  · intro r e h
    simp [test_connection, h]
  · intro r d h
    simp [test_connection, h]
  · intro body hb
    match body with
    | none => simp [test_connection, make_request]
    | some (.obj fields) =>
      simp only [test_connection, make_request]
      split
      · simp
      · simp
      · rename_i heq
        split at heq <;> simp at heq
    | some .null | some (.bool _) | some (.num _) | some (.str _) | some (.arr _) =>
      simp [objBody] at hb

/-- Witness for C7's amended theorem at concrete outcomes: a transport
failure, a successful envelope, and an empty body. -/
theorem test_connection_amended_witness :
    test_connection (.httpFailure "404 Client Error: NOT FOUND for url: https://h/api/v1/challenges")
      = some false ∧
    test_connection (.success (some (.obj [("success", .bool true)]))) = some true ∧
    test_connection (.success none) ≠ none :=
  ⟨test_connection_amended.1 _
      ("Request failed: " ++ "404 Client Error: NOT FOUND for url: https://h/api/v1/challenges") rfl,
   test_connection_amended.2.1 _ (.obj [("success", .bool true)]) rfl,
   test_connection_amended.2.2 none rfl⟩

/-- Counterexample for C7 as stated: a 2xx response on `/challenges`
whose decoded body is the JSON array `[]` makes `data.get` raise an
`AttributeError` that `test_connection` does not catch (it only
catches `CTFdAPIError`), so an exception escapes to the caller instead
of a boolean being returned. -/
theorem test_connection_nonobject_counterexample :
    test_connection (.success (some (.arr []))) = none := rfl

/-! ### Step lemmas for the `submit_flag` candidate loop -/

theorem submitGo_ok (net : String → Json → RawResponse) (endpoint : String)
    (payload : Json) (rest : List (String × Json)) (le : Option String) (n : Nat)
    (data : Json) (h : make_request (net endpoint payload) = .ok data) :
    submitGo net ((endpoint, payload) :: rest) le n = (classify data, n + 1) := by
  simp [submitGo, h]

theorem submitGo_next (net : String → Json → RawResponse) (endpoint : String)
    (payload : Json) (rest : List (String × Json)) (le : Option String) (n : Nat)
    (msg : String) (h : make_request (net endpoint payload) = .apiError msg)
    (hc : strContains msg "403" = true ∨ strContains msg "404" = true) :
    submitGo net ((endpoint, payload) :: rest) le n
      = submitGo net rest (some msg) (n + 1) := by
  rcases hc with hc | hc <;> simp [submitGo, h, hc]

/-! ### C1 — definitive non-403/404 error short-circuits `submit_flag` -/

/-- C3: when the first candidate (`POST /challenges/attempt`) answers
with the well-formed body carrying status `correct` and message
`Correct`, `submit_flag` returns `(True, Correct)` after exactly one
HTTP call, attempting no further candidates. -/
theorem submit_flag_first_candidate_correct (net : String → Json → RawResponse)
    (challenge_id : Int) (flag : String)
    (h : net "/challenges/attempt"
        (.obj [("challenge_id", .num challenge_id), ("submission", .str flag)])
      = .success (some (.obj [("status", Json.str "correct"),
          ("message", Json.str "Correct")]))) :
    submit_flag net challenge_id flag = (.done true (.str "Correct"), 1) := by
  unfold submit_flag submission_attempts
  rw [submitGo_ok net _ _ _ none 0 _ (by rw [h]; rfl)]
  rfl

/-- Witness for C3 at a concrete oracle. -/
theorem submit_flag_first_candidate_correct_witness :
    submit_flag
      (fun _ _ => .success (some (.obj [("status", Json.str "correct"),
        ("message", Json.str "Correct")])))
      42 "flagvalue"
      = (.done true (.str "Correct"), 1) :=
  submit_flag_first_candidate_correct _ 42 "flagvalue" rfl

/-! ### C4 — exhaustion of all four candidates on 403/404 -/

/-- C4 (amended): when all four candidates fail with errors whose text
contains `403` or `404`, `submit_flag` returns false with exactly four
HTTP calls made and a specialized message: when the last error text
contains `403`, the submission-not-allowed text; otherwise a text
containing `working submission endpoint` — NOT the claimed substring
`no working submission endpoint`; the actual text is `Could not find
working submission endpoint. Last error: ...` — carrying the last raw
error. -/
theorem submit_flag_exhaustion_amended (net : String → Json → RawResponse)
    (challenge_id : Int) (flag : String) (m1 m2 m3 m4 : String)
    (h1 : net "/challenges/attempt"
        (.obj [("challenge_id", .num challenge_id), ("submission", .str flag)])
      = .httpFailure m1)
    (h2 : net ("/challenges/" ++ toString challenge_id ++ "/attempts")
        (.obj [("submission", .str flag)]) = .httpFailure m2)
    (h3 : net "/submissions"
        (.obj [("challenge_id", .num challenge_id), ("submission", .str flag)])
      = .httpFailure m3)
    (h4 : net "/submissions"
        (.obj [("challenge", .num challenge_id), ("flag", .str flag)])
      = .httpFailure m4)
    (c1 : strContains ("Request failed: " ++ m1) "403" = true
        ∨ strContains ("Request failed: " ++ m1) "404" = true)
    (c2 : strContains ("Request failed: " ++ m2) "403" = true
        ∨ strContains ("Request failed: " ++ m2) "404" = true)
    (c3 : strContains ("Request failed: " ++ m3) "403" = true
        ∨ strContains ("Request failed: " ++ m3) "404" = true)
    (c4 : strContains ("Request failed: " ++ m4) "403" = true
        ∨ strContains ("Request failed: " ++ m4) "404" = true) :
    submit_flag net challenge_id flag
      = (.done false (.str (if strContains ("Request failed: " ++ m4) "403" then
          "Flag submission not allowed - this CTFd instance may not support API submissions or requires different permissions"
        else
          "Could not find working submission endpoint. Last error: "
            ++ ("Request failed: " ++ m4))), 4) ∧
    strContains ("Could not find working submission endpoint. Last error: "
        ++ ("Request failed: " ++ m4)) "working submission endpoint" = true := by
  constructor
  · unfold submit_flag submission_attempts
    rw [submitGo_next net _ _ _ none 0 _ (by rw [h1]; rfl) c1,
      submitGo_next net _ _ _ _ 1 _ (by rw [h2]; rfl) c2,
      submitGo_next net _ _ _ _ 2 _ (by rw [h3]; rfl) c3,
      submitGo_next net _ _ _ _ 3 _ (by rw [h4]; rfl) c4]
    simp [submitGo, exhaustMessage]
  · exact strContains_append _ _ _ (by decide)

/-- Witness for C4's amended theorem: a 404 on every candidate gives
four calls and the could-not-find message carrying the last error. -/
theorem submit_flag_exhaustion_amended_witness :
    submit_flag
      (fun _ _ => .httpFailure
        "404 Client Error: NOT FOUND for url: https://demo.ctfd.io/api/v1/x")
      1 "flagvalue"
      = (.done false (.str (if strContains
            ("Request failed: " ++ "404 Client Error: NOT FOUND for url: https://demo.ctfd.io/api/v1/x")
            "403" then
          "Flag submission not allowed - this CTFd instance may not support API submissions or requires different permissions"
        else
          "Could not find working submission endpoint. Last error: "
            ++ ("Request failed: "
              ++ "404 Client Error: NOT FOUND for url: https://demo.ctfd.io/api/v1/x"))), 4) :=
  (submit_flag_exhaustion_amended _ 1 "flagvalue" _ _ _ _ rfl rfl rfl rfl
    (Or.inr (by decide)) (Or.inr (by decide)) (Or.inr (by decide))
    (Or.inr (by decide))).1

/-- Counterexample for C4 as stated: with a 404 on all four candidates
the returned message is `Could not find working submission endpoint.
Last error: ...`, which does NOT contain the substring `no working
submission endpoint` the claim requires. -/
theorem submit_flag_exhaustion_message_counterexample :
    submit_flag
      (fun _ _ => .httpFailure
        "404 Client Error: NOT FOUND for url: https://h/api/v1/x")
      2 "flagvalue"
      = (.done false (.str
          "Could not find working submission endpoint. Last error: Request failed: 404 Client Error: NOT FOUND for url: https://h/api/v1/x"), 4) ∧
    strContains
      "Could not find working submission endpoint. Last error: Request failed: 404 Client Error: NOT FOUND for url: https://h/api/v1/x"
      "no working submission endpoint" = false :=
  ⟨rfl, by decide⟩

/-! ### C5 — the shadowed `get_user_solves` fallback chain -/

/-- Concrete oracle for C5: every endpoint fails with a 404-style
error except `/challenges`, whose envelope lists challenge 5 as solved
and challenge 7 as unsolved. -/
def solvesOracle : String → RawResponse := fun endpoint =>
  if endpoint == "/challenges" then
    .success (some (.obj [("success", .bool true), ("data", .arr [
      .obj [("id", .num 5), ("solved_by_me", .bool true)],
      .obj [("id", .num 7), ("solved_by_me", .bool false)]])]))
  else
    .httpFailure "404 Client Error: NOT FOUND for url: https://h/api/v1/x"

/-- C5 (code bug): the fallback chain the claim describes is
implemented by the FIRST `get_user_solves` definition — here
`getUserSolvesChainMe`, which on this oracle walks `/me/solves`,
`/me`, `/submissions/me` and `/teams/me/solves`, then derives the
solved ids `[5]` from the challenges list — but that definition is
shadowed by the second `def get_user_solves` later in the same class
body, so the method that actually exists requires a `user_id`, issues
a single GET on `/users/id/solves` and here returns the empty list;
the chain is unreachable dead code and the method cannot be called for
the current user at all. -/
theorem get_user_solves_shadowing :
    getUserSolvesChainMe solvesOracle = some [Json.num 5] ∧
    get_user_solves solvesOracle 7 = some (.arr []) :=
  ⟨rfl, rfl⟩

/-! ### Lemmas for the profile store -/

theorem countDefaults_clearDefaults (s : Store) :
    countDefaults (clearDefaults s) = 0 := by
  induction s with
  | nil => rfl
  | cons hd tl ih =>
    obtain ⟨k, p⟩ := hd
    simp [clearDefaults, countDefaults, ih]

theorem countDefaults_dictInsert_of_zero (s : Store) (key : String) (v : CTFProfile)
    (h : countDefaults s = 0) :
    countDefaults (dictInsert s key v) = if v.default then 1 else 0 := by
  induction s with
  | nil => simp [dictInsert, countDefaults]
  | cons hd tl ih =>
    obtain ⟨k, p⟩ := hd
    simp only [countDefaults] at h
    have hp : p.default = false := by
      cases hd : p.default
      · rfl
      · simp [hd] at h
    have htl : countDefaults tl = 0 := by
      rw [hp] at h; simpa using h
    by_cases hk : k = key
    · simp [dictInsert, hk, countDefaults, hp, htl]
    · simp [dictInsert, hk, countDefaults, hp, ih htl]

theorem countDefaults_dictInsert_nondefault (s : Store) (key : String) (v : CTFProfile)
    (hd : defaultAt s key = false) (hv : v.default = false) :
    countDefaults (dictInsert s key v) = countDefaults s := by
  induction s with
  | nil => simp [dictInsert, countDefaults, hv]
  | cons p0 tl ih =>
    obtain ⟨k, p⟩ := p0
    by_cases hk : k = key
    · have hp : p.default = false := by
        simpa [defaultAt, dictLookup, hk] using hd
      simp [dictInsert, hk, countDefaults, hv, hp]
    · have hd' : defaultAt tl key = false := by
        simpa [defaultAt, dictLookup, hk] using hd
      simp [dictInsert, hk, countDefaults, ih hd']

theorem countDefaults_dictRemove (s : Store) (name : String) (p : CTFProfile)
    (h : dictLookup s name = some p) :
    countDefaults s = countDefaults (dictRemove s name)
      + (if p.default then 1 else 0) := by
  induction s with
  | nil => simp [dictLookup] at h
  | cons p0 tl ih =>
    obtain ⟨k, q⟩ := p0
    by_cases hk : k = name
    · simp only [dictLookup, hk, if_pos rfl] at h
      cases h
      simp [dictRemove, hk, countDefaults, Nat.add_comm]
    · simp only [dictLookup, hk, if_neg hk] at h
      simp [dictRemove, hk, countDefaults, ih h, Nat.add_assoc]

theorem countDefaults_setDefaultTrue (s : Store) (key : String)
    (h0 : countDefaults s = 0) (hk : (dictLookup s key).isSome = true) :
    countDefaults (setDefaultTrue s key) = 1 := by
  induction s with
  | nil => simp [dictLookup] at hk
  | cons p0 tl ih =>
    obtain ⟨k, p⟩ := p0
    simp only [countDefaults] at h0
    have hp : p.default = false := by
      cases hd : p.default
      · rfl
      · simp [hd] at h0
    have htl : countDefaults tl = 0 := by
      rw [hp] at h0; simpa using h0
    by_cases hkk : k = key
    · simp [setDefaultTrue, hkk, countDefaults, htl]
    · have hk' : (dictLookup tl key).isSome = true := by
        simpa [dictLookup, hkk] using hk
      simp [setDefaultTrue, hkk, countDefaults, hp, ih htl hk']

theorem dictLookup_clearDefaults_isSome (s : Store) (key : String) :
    (dictLookup (clearDefaults s) key).isSome = (dictLookup s key).isSome := by
  induction s with
  | nil => rfl
  | cons p0 tl ih =>
    obtain ⟨k, p⟩ := p0
    by_cases hk : k = key
    · simp [clearDefaults, dictLookup, hk]
    · simp [clearDefaults, dictLookup, hk, ih]

theorem length_pos_of_countDefaults_one (s : Store) (h : countDefaults s = 1) :
    (s.length == 0) = false := by
  cases s with
  | nil => simp [countDefaults] at h
  | cons p tl => simp

/-! ### C6 — the single-default invariant of the profile store -/

/-- C6 (amended): `add_profile` with `set_default = true` always leaves
exactly one stored profile with `default == true`; starting from a
store with exactly one default, the invariant is preserved by
`set_default_profile`, by `delete_profile` whenever the resulting
store is nonempty, and by `add_profile` with `set_default = false`
whenever the name being added is not the current default profile's
name. It is NOT preserved by every mutation: overwriting the default
profile with `set_default = false` (and deleting the last profile)
leaves zero defaults. -/
theorem profile_default_invariant_amended :
    (∀ (s : Store) (name url token : String) (um : Bool),
      countDefaults (add_profile s name url token um true) = 1) ∧
    (∀ (s : Store) (name url token : String) (um : Bool),
      countDefaults s = 1 → defaultAt s name = false →
      countDefaults (add_profile s name url token um false) = 1) ∧
    (∀ (s : Store) (name : String),
      countDefaults s = 1 → (delete_profile s name).isEmpty = false →
      countDefaults (delete_profile s name) = 1) ∧
    (∀ (s : Store) (name : String),
      countDefaults s = 1 → countDefaults (set_default_profile s name) = 1) := by
  refine ⟨?_, ?_, ?_, ?_⟩
  · intro s name url token um
    show countDefaults (dictInsert (clearDefaults s) name
      ⟨name, url, token, um, true⟩) = 1
    rw [countDefaults_dictInsert_of_zero _ _ _ (countDefaults_clearDefaults s)]
    rfl
  · intro s name url token um h1 hdef
    show countDefaults (dictInsert s name
      ⟨name, url, token, um, s.length == 0⟩) = 1
    rw [length_pos_of_countDefaults_one s h1]
    rw [countDefaults_dictInsert_nondefault s name _ hdef rfl]
    exact h1
  · intro s name h1 hne
    cases hl : dictLookup s name with
    | none =>
      unfold delete_profile
      rw [hl]
      exact h1
    | some p =>
      have hdel : delete_profile s name =
          if p.default && !(dictRemove s name).isEmpty then
            match dictRemove s name with
            | [] => dictRemove s name
            | q :: rest => (q.1, { q.2 with default := true }) :: rest
          else dictRemove s name := by
        unfold delete_profile
        rw [hl]
      rw [hdel] at hne ⊢
      have hrem := countDefaults_dictRemove s name p hl
      by_cases hpd : p.default = true
      · cases hs1 : dictRemove s name with
        | nil =>
          simp [hs1] at hne
        | cons q rest =>
          rw [hs1, hpd] at hrem
          rw [h1] at hrem
          simp at hrem
          have h0 : countDefaults (q :: rest) = 0 := by omega
          have hrest : countDefaults rest = 0 := by
            cases hqd : q.2.default
            · simpa [countDefaults, hqd] using h0
            · simp [countDefaults, hqd] at h0
          simp [hpd, countDefaults, hrest]
      · have hpd' : p.default = false := by
          cases hpdd : p.default
          · rfl
          · exact absurd hpdd hpd
        rw [hpd'] at hrem
        simp at hrem
        rw [hpd']
        simp only [Bool.false_and, Bool.false_eq_true, if_false]
        omega
  · intro s name h1
    unfold set_default_profile
    cases hl : dictLookup s name with
    | none =>
      exact h1
    | some p =>
      exact countDefaults_setDefaultTrue _ _ (countDefaults_clearDefaults s)
        (by rw [dictLookup_clearDefaults_isSome, hl]; rfl)

/-- Witness for C6's amended theorem on a concrete two-profile store
with one default. -/
theorem profile_default_invariant_witness :
    countDefaults (add_profile
      [("a", ⟨"a", "https://a", "t", true, true⟩)] "b" "https://b" "t2" true true) = 1 ∧
    countDefaults (add_profile
      [("a", ⟨"a", "https://a", "t", true, true⟩)] "b" "https://b" "t2" true false) = 1 ∧
    countDefaults (delete_profile
      [("a", ⟨"a", "https://a", "t", true, true⟩),
       ("b", ⟨"b", "https://b", "t2", true, false⟩)] "a") = 1 ∧
    countDefaults (set_default_profile
      [("a", ⟨"a", "https://a", "t", true, true⟩),
       ("b", ⟨"b", "https://b", "t2", true, false⟩)] "b") = 1 :=
  ⟨profile_default_invariant_amended.1 _ "b" "https://b" "t2" true,
   profile_default_invariant_amended.2.1 _ "b" "https://b" "t2" true rfl rfl,
   profile_default_invariant_amended.2.2.1 _ "a" rfl rfl,
   profile_default_invariant_amended.2.2.2 _ "b" rfl⟩

/-- Counterexample for C6 as stated: starting from a store whose only
profile `a` is the default (exactly one default), calling
`add_profile` with the same name `a` and `set_default = false`
overwrites the default profile with a non-default one (the store is
nonempty, so the first-profile rule does not apply), leaving ZERO
stored profiles with `default == true` — the invariant is not
preserved by every mutation. -/
theorem add_profile_overwrite_default_counterexample :
    countDefaults [("a", ⟨"a", "https://a", "t", true, true⟩)] = 1 ∧
    countDefaults (add_profile
      [("a", ⟨"a", "https://a", "t", true, true⟩)]
      "a" "https://a" "t2" true false) = 0 :=
  ⟨rfl, rfl⟩

/-! ### C9 — the first profile ever added becomes the default -/

/-- C9: `add_profile` on an empty store stores the new profile with
`default == true`, whatever `set_default` was passed — the profile's
flag is `set_default or len(profiles) == 0`. -/
theorem add_profile_first_default (name url token : String)
    (user_mode set_default : Bool) :
    add_profile [] name url token user_mode set_default
      = [(name, ⟨name, url, token, user_mode, true⟩)] := by
  cases set_default <;> rfl

/-! ### C8 — scoreboard positions follow response order -/

theorem mkScoreboardEntry_pos (i : Nat) (e : Json) (ent : ScoreboardEntry)
    (h : mkScoreboardEntry i e = some ent) : ent.pos = i := by
  unfold mkScoreboardEntry at h
  split at h
  · cases h
    rfl
  · cases h

theorem scoreboardGo_spec (data : List Json) : ∀ (i : Nat) (es : List ScoreboardEntry),
    scoreboardGo i data = some es →
    es.length = data.length ∧
    ∀ j e, data[j]? = some e → es[j]? = mkScoreboardEntry (i + j) e := by
  induction data with
  | nil =>
    intro i es h
    simp only [scoreboardGo] at h
    cases h
    simp
  | cons d ds ih =>
    intro i es h
    have hh : scoreboardGo i (d :: ds)
        = Option.bind (mkScoreboardEntry i d)
            (fun ent => Option.bind (scoreboardGo (i + 1) ds)
              (fun tail => some (ent :: tail))) := rfl
    rw [hh] at h
    cases hent : mkScoreboardEntry i d with
    | none => simp [hent] at h
    | some ent =>
    cases htail : scoreboardGo (i + 1) ds with
    | none => simp [hent, htail] at h
    | some tail =>
    rw [hent, htail] at h
    simp only [Option.some_bind, Option.some.injEq] at h
    subst h
    obtain ⟨hlen, hget⟩ := ih (i + 1) tail htail
    constructor
    · simp [hlen]
    · intro j e hj
      cases j with
      | zero =>
        simp only [List.getElem?_cons_zero, Option.some.injEq] at hj
        subst hj
        simp [hent]
      | succ j' =>
        simp only [List.getElem?_cons_succ] at hj ⊢
        rw [hget j' e hj]
        congr 1
        omega

/-- C8: whenever `get_scoreboard` succeeds on a decoded scoreboard
list, it produces exactly one entry per response entry, the entry at
index `j` is built from the response entry at index `j` (no
client-side re-sorting by score or any other key), and its `pos` is
the 1-indexed rank `j + 1` assigned purely by response order. -/
theorem get_scoreboard_order (data : List Json) (es : List ScoreboardEntry)
    (h : get_scoreboard data = some es) :
    es.length = data.length ∧
    (∀ j e, data[j]? = some e → es[j]? = mkScoreboardEntry (j + 1) e) ∧
    (∀ j ent, es[j]? = some ent → ent.pos = j + 1) := by
  obtain ⟨hlen, hget⟩ := scoreboardGo_spec data 1 es h
  have hget' : ∀ j e, data[j]? = some e → es[j]? = mkScoreboardEntry (j + 1) e := by
    intro j e hj
    rw [hget j e hj]
    congr 1
    omega
  refine ⟨hlen, hget', ?_⟩
  intro j ent hj
  have hjlt : j < es.length := by
    by_contra hge
    rw [List.getElem?_eq_none (by omega)] at hj
    cases hj
  have hjd : j < data.length := by omega
  obtain ⟨e, hje⟩ : ∃ e, data[j]? = some e :=
    ⟨data[j], (List.getElem?_eq_some.2 ⟨hjd, rfl⟩ : _)⟩
  have := hget' j e hje
  rw [hj] at this
  exact mkScoreboardEntry_pos _ _ _ this.symm

/-- Witness for C8 at a concrete two-entry scoreboard response. -/
theorem get_scoreboard_order_witness :
    ([⟨1, Json.num 3, Json.str "t1", Json.num 100, Json.str "user"⟩,
      ⟨2, Json.num 9, Json.str "t2", Json.num 50, Json.str "team"⟩]
        : List ScoreboardEntry)[1]?
      = mkScoreboardEntry (1 + 1)
          (Json.obj [("account_id", Json.num 9), ("name", Json.str "t2"),
            ("score", Json.num 50), ("type", Json.str "team")]) :=
  (get_scoreboard_order
    [Json.obj [("account_id", Json.num 3), ("name", Json.str "t1"),
       ("score", Json.num 100)],
     Json.obj [("account_id", Json.num 9), ("name", Json.str "t2"),
       ("score", Json.num 50), ("type", Json.str "team")]]
    _ rfl).2.1 1 _ rfl

/-! ### C10 — challenge file URLs are absolute -/

theorem str_append_assoc (a b c : String) : a ++ b ++ c = a ++ (b ++ c) := by
  apply congrArg String.mk
  simp [str_data_append, List.append_assoc]

/-- C10: `get_challenge_files` maps each entry of the challenge's
`files` list as the claim states — unchanged when it starts with
`http`, base-URL-prefixed when it starts with `/files/`, and
base-URL-plus-`/files/`-prefixed after stripping leading slashes
otherwise — and consequently every returned URL either already starts
with `http` or extends the client's base URL. -/
theorem get_challenge_files_spec (base_url : String) (files : List String) :
    (∀ f, f ∈ files → pyStartsWith f "http" = true → fileUrl base_url f = f) ∧
    (∀ f, f ∈ files → pyStartsWith f "http" = false →
      pyStartsWith f "/files/" = true → fileUrl base_url f = base_url ++ f) ∧
    (∀ f, f ∈ files → pyStartsWith f "http" = false →
      pyStartsWith f "/files/" = false →
      fileUrl base_url f = base_url ++ "/files/" ++ lstripSlash f) ∧
    (∀ u, u ∈ get_challenge_files base_url files →
      pyStartsWith u "http" = true ∨ ∃ rest, u = base_url ++ rest) := by
  refine ⟨?_, ?_, ?_, ?_⟩
  · intro f _ h1
    simp [fileUrl, h1]
  · intro f _ h1 h2
    simp [fileUrl, h1, h2]
  · intro f _ h1 h2
    simp [fileUrl, h1, h2]
  · intro u hu
    obtain ⟨f, _, rfl⟩ := List.mem_map.1 hu
    unfold fileUrl
    by_cases h1 : pyStartsWith f "http" = true
    · rw [if_pos h1]
      exact Or.inl h1
    · rw [if_neg h1]
      by_cases h2 : pyStartsWith f "/files/" = true
      · rw [if_pos h2]
        exact Or.inr ⟨f, rfl⟩
      · rw [if_neg h2]
        exact Or.inr ⟨"/files/" ++ lstripSlash f, str_append_assoc _ _ _⟩

/-- Witness for C10 on a concrete base URL and files list, one file
per branch, plus the absoluteness of a returned URL. -/
theorem get_challenge_files_spec_witness :
    fileUrl "https://h" "http://x/y" = "http://x/y" ∧
    fileUrl "https://h" "/files/a.zip" = "https://h" ++ "/files/a.zip" ∧
    fileUrl "https://h" "a.zip" = "https://h" ++ "/files/" ++ lstripSlash "a.zip" ∧
    (pyStartsWith "https://h/files/a.zip" "http" = true
      ∨ ∃ rest, "https://h/files/a.zip" = "https://h" ++ rest) :=
  ⟨(get_challenge_files_spec "https://h" ["http://x/y", "/files/a.zip", "a.zip"]).1
      _ (by simp) rfl,
   (get_challenge_files_spec "https://h" ["http://x/y", "/files/a.zip", "a.zip"]).2.1
      _ (by simp) rfl rfl,
   (get_challenge_files_spec "https://h" ["http://x/y", "/files/a.zip", "a.zip"]).2.2.1
      _ (by simp) rfl rfl,
   (get_challenge_files_spec "https://h" ["http://x/y", "/files/a.zip", "a.zip"]).2.2.2
      "https://h/files/a.zip" (by decide)⟩
